import Mathlib

/-!
Shallow embedding of the remote-scraper repository (scraper.py,
job_scraper.py, ai_scraper.py) and proofs about its core operations:
credential rotation, retrying fetch, normalization, deduplication and
the pagination walk.

Python dictionaries of string fields are modelled by a structure of
optional strings (a missing key is `none`); `dict.get(k, d)` becomes
`Option.getD`. Machine behaviour that the claims observe (call counts,
key indices, page counts) is threaded explicitly through the state.
-/

namespace RemoteScraper

/-- A job dictionary as it flows through the pipeline: a bag of optional
string fields. A field that is absent from the Python dict is `none`. -/
structure StrDict where
  title : Option String
  company : Option String
  location : Option String
  job_type : Option String
  apply_url : Option String
  src : Option String
deriving DecidableEq, Repr

/-- The apply_url of a record as the code reads it:
job.get(quoted apply_url, empty default). -/
def urlOf (j : StrDict) : String :=
  j.apply_url.getD ""

/-- Loop body of deduplicate_jobs (scraper.py lines 924-939,
job_scraper.py lines 308-319, and the inline loop of ai_scraper.py main,
lines 114-121 — the three are the same algorithm): keep a record only
when its apply_url is non-empty and not yet seen. The Python set of seen
urls is modelled by a list with membership. -/
def dedupAux (seen : List String) : List StrDict → List StrDict
  | [] => []
  | j :: rest =>
    if urlOf j ≠ "" ∧ urlOf j ∉ seen then
      j :: dedupAux (urlOf j :: seen) rest
    else
      dedupAux seen rest

/-- deduplicate_jobs: remove duplicate job listings based on apply_url,
keeping the first occurrence of each non-empty url. -/
def deduplicate_jobs (jobs : List StrDict) : List StrDict :=
  dedupAux [] jobs

/-- Model of the Python str.strip method: drop whitespace characters
from both ends of the string. Defined on the character list so that it
evaluates inside the kernel. -/
def pyStrip (s : String) : String :=
  ⟨((s.data.dropWhile Char.isWhitespace).reverse.dropWhile
      Char.isWhitespace).reverse⟩

/-- extract_job_data of scraper.py (lines 95-112): strip every field
(absent fields default to the empty string), then accept only when the
stripped title and apply_url are non-empty and the stripped title is
longer than 3 characters. -/
def extract_job_data (raw : StrDict) (src : String) : Option StrDict :=
  let title := pyStrip (raw.title.getD "")
  let company := pyStrip (raw.company.getD "")
  let location := pyStrip (raw.location.getD "")
  let job_type := pyStrip (raw.job_type.getD "")
  let apply_url := pyStrip (raw.apply_url.getD "")
  if title ≠ "" ∧ apply_url ≠ "" ∧ 3 < title.length then
    some ⟨some title, some company, some location, some job_type,
          some apply_url, some src⟩
  else
    none

/-- extract_job_data of job_scraper.py (lines 48-60): reject when the raw
(unstripped) title or apply_url is absent or empty, otherwise return the
stripped record with defaults N/A, Remote, Full-time for absent
company, location, job_type. -/
def extract_job_dataJS (raw : StrDict) (src : String) : Option StrDict :=
  if raw.title.getD "" = "" ∨ raw.apply_url.getD "" = "" then
    none
  else
    some ⟨some (pyStrip (raw.title.getD "")),
          some (pyStrip (raw.company.getD "N/A")),
          some (pyStrip (raw.location.getD "Remote")),
          some (pyStrip (raw.job_type.getD "Full-time")),
          some (pyStrip (raw.apply_url.getD "")),
          some src⟩

/-- rotate_api_key of scraper.py (lines 48-59): with at most one key the
rotation is a no-op returning false; otherwise advance the index
circularly and return true. The function maps the current index to the
new index paired with the returned flag. -/
def rotate_api_key (keys : List String) (i : Nat) : Nat × Bool :=
  if keys.length ≤ 1 then
    (i, false)
  else
    ((i + 1) % keys.length, true)

/-- rotate_api_key of job_scraper.py (lines 28-32) and rotate_key of
ai_scraper.py (lines 18-21): unconditionally advance the index
circularly. -/
def rotate_api_keyJS (keys : List String) (i : Nat) : Nat :=
  (i + 1) % keys.length

/-- Failure ways of module initialization. -/
inductive InitError where
  | configError
  | indexError
deriving DecidableEq, Repr

/-- Key-list filtering done at import time in all three scripts: read the
five environment variables (each possibly unset, modelled as an optional
string) and keep the truthy values (present and non-empty). -/
def apiKeysOf (envKeys : List (Option String)) : List String :=
  (envKeys.filterMap id).filter (fun s => s ≠ "")

/-- Module initialization of scraper.py (lines 27-45) and job_scraper.py
(lines 15-25): filter the configured keys; with an empty result raise
ValueError (the ConfigurationError of the design) before any client is
built; otherwise the state is the key list with current index 0. -/
def scraperInit (envKeys : List (Option String)) :
    Except InitError (List String × Nat) :=
  let keys := apiKeysOf envKeys
  if keys = [] then
    .error .configError
  else
    .ok (keys, 0)

/-- Module initialization of ai_scraper.py (lines 10-15): filter the
configured keys and immediately index the list at position 0 to build
the client. There is no emptiness check, so an empty pool fails with an
IndexError from the subscript, not with a configuration error. -/
def aiScraperInit (envKeys : List (Option String)) :
    Except InitError (List String × Nat) :=
  match apiKeysOf envKeys with
  | [] => .error .indexError
  | _ :: _ => .ok (apiKeysOf envKeys, 0)

/-- Classification of one underlying app.scrape call, as the retry loops
distinguish them: success, a rate-limit error message, or any other
exception. -/
inductive CallOutcome where
  | success
  | rateLimited
  | fatal
deriving DecidableEq, Repr

/-- Failure ways of scrape_with_retry in scraper.py. -/
inductive RetryErr where
  | rateLimited
  | fatal
  | exhausted
deriving DecidableEq, Repr

/-- Loop of scrape_with_retry in scraper.py (lines 62-92). Arguments:
number of configured keys n, the outcome of each underlying call as a
function of the global call counter, remaining attempts, current call
counter, current key index. Returns the result, the number of underlying
calls issued, and the final key index. On success the result is
returned; on a rate-limit error with at least two keys the pool rotates
and the loop continues; with a single key the loop sleeps and retries,
re-raising the rate-limit error on the last attempt; any other exception
is re-raised at once; an exhausted loop raises the final failure. -/
def scrapeWithRetryGo (n : Nat) (out : Nat → CallOutcome) :
    Nat → Nat → Nat → Except RetryErr Unit × Nat × Nat
  | 0, _, k => (.error .exhausted, 0, k)
  | rem + 1, c, k =>
    match out c with
    | .success => (.ok (), 1, k)
    | .fatal => (.error .fatal, 1, k)
    | .rateLimited =>
      if 2 ≤ n then
        ((scrapeWithRetryGo n out rem (c + 1) ((k + 1) % n)).1,
         (scrapeWithRetryGo n out rem (c + 1) ((k + 1) % n)).2.1 + 1,
         (scrapeWithRetryGo n out rem (c + 1) ((k + 1) % n)).2.2)
      else
        if rem = 0 then
          (.error .rateLimited, 1, k)
        else
          ((scrapeWithRetryGo n out rem (c + 1) k).1,
           (scrapeWithRetryGo n out rem (c + 1) k).2.1 + 1,
           (scrapeWithRetryGo n out rem (c + 1) k).2.2)

/-- scrape_with_retry of scraper.py: run the loop for max_retries
attempts starting at call counter 0. -/
def scrape_with_retry (n : Nat) (out : Nat → CallOutcome)
    (maxRetries k : Nat) : Except RetryErr Unit × Nat × Nat :=
  scrapeWithRetryGo n out maxRetries 0 k

/-- Loop of scrape_with_retry in job_scraper.py (lines 35-45): on a
rate-limit error rotate and continue; on any other exception return
None; an exhausted loop also returns None. -/
def scrapeWithRetryJSGo (n : Nat) (out : Nat → CallOutcome) :
    Nat → Nat → Nat → Option Unit × Nat × Nat
  | 0, _, k => (none, 0, k)
  | rem + 1, c, k =>
    match out c with
    | .success => (some (), 1, k)
    | .fatal => (none, 1, k)
    | .rateLimited =>
      ((scrapeWithRetryJSGo n out rem (c + 1) ((k + 1) % n)).1,
       (scrapeWithRetryJSGo n out rem (c + 1) ((k + 1) % n)).2.1 + 1,
       (scrapeWithRetryJSGo n out rem (c + 1) ((k + 1) % n)).2.2)

/-- scrape_with_retry of job_scraper.py: the loop runs for
max_retries * len(API_KEYS) attempts, not max_retries. -/
def scrape_with_retryJS (n : Nat) (out : Nat → CallOutcome)
    (maxRetries k : Nat) : Option Unit × Nat × Nat :=
  scrapeWithRetryJSGo n out (maxRetries * n) 0 k

/-- Outcome of one app.extract call in ai_scraper.py, as the code
distinguishes them: a result carrying the extracted job list and the
optional next_page_url, a falsy or data-less result, a quota exception
(Payment Required or Insufficient credits), or any other exception. -/
inductive ExtractOutcome where
  | ok (jobs : List StrDict) (next : Option String)
  | empty
  | quotaErr
  | err
deriving DecidableEq, Repr

/-- Loop of scrape_site in ai_scraper.py (lines 48-94). Arguments: the
extract outcome as a function of url and key index, number of keys n,
the max_pages cap, recursion fuel, current page_count, current key
index, current url. Returns the accumulated jobs, the final key index,
and the number of loop iterations performed (pages visited). The loop
runs while the url is non-empty and page_count < max_pages. A falsy
result breaks; a missing, empty, or self-referential next_page_url
breaks after keeping the page jobs. On a quota exception the key
rotates and the extract is retried once inside the handler: a result
with data is consumed like a normal page except that a bad next url
breaks; a falsy result falls out of the handler and the loop continues
on the same url; a second exception breaks. -/
def scrape_site_go (env : String → Nat → ExtractOutcome) (n mp : Nat) :
    Nat → Nat → Nat → String → List StrDict × Nat × Nat
  | 0, _, k, _ => ([], k, 0)
  | fuel + 1, pc, k, cur =>
    if cur = "" ∨ mp ≤ pc then
      ([], k, 0)
    else
      match env cur k with
      | .empty => ([], k, 1)
      | .err => ([], k, 1)
      | .ok jobs none => (jobs, k, 1)
      | .ok jobs (some next) =>
        if next = "" ∨ next = cur then
          (jobs, k, 1)
        else
          (jobs ++ (scrape_site_go env n mp fuel (pc + 1) k next).1,
           (scrape_site_go env n mp fuel (pc + 1) k next).2.1,
           (scrape_site_go env n mp fuel (pc + 1) k next).2.2 + 1)
      | .quotaErr =>
        match env cur ((k + 1) % n) with
        | .ok jobs next? =>
          match next? with
          | some next =>
            if next ≠ "" ∧ next ≠ cur then
              (jobs ++ (scrape_site_go env n mp fuel (pc + 1) ((k + 1) % n) next).1,
               (scrape_site_go env n mp fuel (pc + 1) ((k + 1) % n) next).2.1,
               (scrape_site_go env n mp fuel (pc + 1) ((k + 1) % n) next).2.2 + 1)
            else
              (jobs, (k + 1) % n, 1)
          | none => (jobs, (k + 1) % n, 1)
        | .empty =>
          ((scrape_site_go env n mp fuel (pc + 1) ((k + 1) % n) cur).1,
           (scrape_site_go env n mp fuel (pc + 1) ((k + 1) % n) cur).2.1,
           (scrape_site_go env n mp fuel (pc + 1) ((k + 1) % n) cur).2.2 + 1)
        | .quotaErr => ([], (k + 1) % n, 1)
        | .err => ([], (k + 1) % n, 1)

/-- scrape_site of ai_scraper.py: run the walk from the start url with
page_count 0 and key index 0; max_pages bounds the loop, so fuel
max_pages is exact (proved below). The call in main uses max_pages = 2. -/
def scrape_site (env : String → Nat → ExtractOutcome) (n : Nat)
    (url : String) (maxPages : Nat) : List StrDict :=
  (scrape_site_go env n maxPages maxPages 0 0 url).1

/-! Helper lemmas about the deduplication loop. -/

theorem dedupAux_sublist (seen : List String) (l : List StrDict) :
    (dedupAux seen l).Sublist l := by
  induction l generalizing seen with
  | nil => simp [dedupAux]
  | cons j rest ih =>
    simp only [dedupAux]
    split
    · exact (ih _).cons₂ j
    · exact (ih _).cons j

theorem mem_dedupAux (seen : List String) (l : List StrDict) (r : StrDict)
    (hr : r ∈ dedupAux seen l) : r ∈ l ∧ urlOf r ≠ "" ∧ urlOf r ∉ seen := by
  induction l generalizing seen with
  | nil => simp [dedupAux] at hr
  | cons j rest ih =>
    simp only [dedupAux] at hr
    split at hr
    · rename_i hc
      rcases List.mem_cons.mp hr with h | h
      · subst h
        exact ⟨List.mem_cons_self _ _, hc.1, hc.2⟩
      · obtain ⟨h1, h2, h3⟩ := ih _ h
        exact ⟨List.mem_cons_of_mem _ h1, h2,
          fun hs => h3 (List.mem_cons_of_mem _ hs)⟩
    · obtain ⟨h1, h2, h3⟩ := ih _ hr
      exact ⟨List.mem_cons_of_mem _ h1, h2, h3⟩

theorem dedupAux_pairwise (seen : List String) (l : List StrDict) :
    (dedupAux seen l).Pairwise (fun a b => urlOf a ≠ urlOf b) := by
  induction l generalizing seen with
  | nil => simp [dedupAux]
  | cons j rest ih =>
    simp only [dedupAux]
    split
    · refine List.Pairwise.cons (fun b hb he => ?_) (ih _)
      exact (mem_dedupAux _ _ _ hb).2.2 (by rw [← he]; exact List.mem_cons_self _ _)
    · exact ih _

theorem dedupAux_filter_of_mem_seen (seen : List String) (l : List StrDict)
    (u : String) (hu : u ∈ seen) :
    (dedupAux seen l).filter (fun r => urlOf r == u) = [] := by
  rw [List.filter_eq_nil_iff]
  intro r hr
  simp only [beq_iff_eq]
  intro he
  exact (mem_dedupAux _ _ _ hr).2.2 (by rw [he]; exact hu)

theorem dedupAux_filter_find (seen : List String) (l : List StrDict)
    (u : String) (H : ∀ r ∈ l, urlOf r ≠ "") (hu : u ∉ seen) :
    (dedupAux seen l).filter (fun r => urlOf r == u)
      = (l.find? (fun r => urlOf r == u)).toList := by
  induction l generalizing seen with
  | nil => simp [dedupAux]
  | cons j rest ih =>
    have Hrest : ∀ r ∈ rest, urlOf r ≠ "" :=
      fun r hr => H r (List.mem_cons_of_mem _ hr)
    by_cases hju : urlOf j = u
    · have hcond : urlOf j ≠ "" ∧ urlOf j ∉ seen :=
        ⟨H j (List.mem_cons_self _ _), by rw [hju]; exact hu⟩
      simp only [dedupAux]
      rw [if_pos hcond, List.filter_cons_of_pos (by simp [hju]),
        List.find?_cons_of_pos _ (by simp [hju]),
        dedupAux_filter_of_mem_seen _ _ _ (by rw [hju]; exact List.mem_cons_self _ _)]
      rfl
    · simp only [dedupAux]
      rw [List.find?_cons_of_neg _ (by simp [hju])]
      split
      · rw [List.filter_cons_of_neg (by simp [hju])]
        exact ih _ Hrest (by
          simp only [List.mem_cons, not_or]
          exact ⟨fun h => hju h.symm, hu⟩)
      · exact ih _ Hrest hu

theorem dedupAux_of_fresh (seen : List String) (m : List StrDict)
    (H : ∀ r ∈ m, urlOf r ≠ "" ∧ urlOf r ∉ seen)
    (hp : m.Pairwise (fun a b => urlOf a ≠ urlOf b)) :
    dedupAux seen m = m := by
  induction m generalizing seen with
  | nil => rfl
  | cons j rest ih =>
    obtain ⟨h1, h2⟩ := H j (List.mem_cons_self _ _)
    simp only [dedupAux]
    rw [if_pos ⟨h1, h2⟩]
    congr 1
    refine ih _ (fun r hr => ?_) (List.pairwise_cons.mp hp).2
    obtain ⟨g1, g2⟩ := H r (List.mem_cons_of_mem _ hr)
    refine ⟨g1, ?_⟩
    simp only [List.mem_cons, not_or]
    exact ⟨fun he => (List.pairwise_cons.mp hp).1 r hr he.symm, g2⟩

/-- C3: on inputs made of proper job records (apply_url present and
non-empty, the JobRecord invariant of the design), the output of
deduplicate_jobs has pairwise distinct apply_urls, is a subsequence of
the input, and for every url u the output records with url u are exactly
the first input record with url u (later records with the same url are
dropped regardless of other field differences). -/
theorem deduplicate_first_seen (l : List StrDict) (u : String)
    (H : ∀ r ∈ l, urlOf r ≠ "") :
    (deduplicate_jobs l).Sublist l ∧
    (deduplicate_jobs l).Pairwise (fun a b => urlOf a ≠ urlOf b) ∧
    (deduplicate_jobs l).filter (fun r => urlOf r == u)
      = (l.find? (fun r => urlOf r == u)).toList :=
  ⟨dedupAux_sublist _ _, dedupAux_pairwise _ _,
    dedupAux_filter_find _ _ _ H (List.not_mem_nil u)⟩

/-- Instance of C3 on the end-to-end scenario records of the spec. -/
theorem deduplicate_first_seen_witness :
    (deduplicate_jobs
        [⟨some "Engineer A", none, none, none, some "https://x/1", none⟩,
         ⟨some "Engineer B", none, none, none, some "https://x/1", none⟩,
         ⟨some "Engineer C", none, none, none, some "https://y/2", none⟩]).Sublist
        [⟨some "Engineer A", none, none, none, some "https://x/1", none⟩,
         ⟨some "Engineer B", none, none, none, some "https://x/1", none⟩,
         ⟨some "Engineer C", none, none, none, some "https://y/2", none⟩] ∧
    (deduplicate_jobs
        [⟨some "Engineer A", none, none, none, some "https://x/1", none⟩,
         ⟨some "Engineer B", none, none, none, some "https://x/1", none⟩,
         ⟨some "Engineer C", none, none, none, some "https://y/2", none⟩]).Pairwise
        (fun a b => urlOf a ≠ urlOf b) ∧
    (deduplicate_jobs
        [⟨some "Engineer A", none, none, none, some "https://x/1", none⟩,
         ⟨some "Engineer B", none, none, none, some "https://x/1", none⟩,
         ⟨some "Engineer C", none, none, none, some "https://y/2", none⟩]).filter
        (fun r => urlOf r == "https://x/1")
      = (([⟨some "Engineer A", none, none, none, some "https://x/1", none⟩,
           ⟨some "Engineer B", none, none, none, some "https://x/1", none⟩,
           ⟨some "Engineer C", none, none, none, some "https://y/2", none⟩] :
            List StrDict).find? (fun r => urlOf r == "https://x/1")).toList :=
  deduplicate_first_seen _ "https://x/1" (by decide)

/-- C6: deduplicate_jobs is idempotent on every input sequence. -/
theorem deduplicate_idempotent (l : List StrDict) :
    deduplicate_jobs (deduplicate_jobs l) = deduplicate_jobs l := by
  refine dedupAux_of_fresh _ _ (fun r hr => ?_) (dedupAux_pairwise _ _)
  exact ⟨(mem_dedupAux _ _ _ hr).2.1, List.not_mem_nil _⟩

/-- C10: a record whose apply_url is absent or empty never appears in the
output of deduplicate_jobs, whatever the input sequence. -/
theorem dedup_drops_empty_url (l : List StrDict) (r : StrDict)
    (h : r.apply_url = none ∨ r.apply_url = some "") :
    r ∉ deduplicate_jobs l := by
  intro hr
  apply (mem_dedupAux _ _ _ hr).2.1
  rcases h with h | h <;> simp [urlOf, h]

/-- Instance of C10: a record with no apply_url key is dropped even when
it is the only input. -/
theorem dedup_drops_empty_url_witness :
    (⟨some "Engineer A", none, none, none, none, none⟩ : StrDict) ∉
      deduplicate_jobs [⟨some "Engineer A", none, none, none, none, none⟩] :=
  dedup_drops_empty_url _ _ (Or.inl rfl)

/-! Call-count bounds for the two retry loops. -/

theorem scrapeWithRetryGo_calls_le (n : Nat) (out : Nat → CallOutcome) :
    ∀ rem c k, (scrapeWithRetryGo n out rem c k).2.1 ≤ rem := by
  intro rem
  induction rem with
  | zero => intro c k; simp [scrapeWithRetryGo]
  | succ rem ih =>
    intro c k
    cases h : out c with
    | success => simp [scrapeWithRetryGo, h]
    | fatal => simp [scrapeWithRetryGo, h]
    | rateLimited =>
      simp only [scrapeWithRetryGo, h]
      split
      · exact Nat.succ_le_succ (ih (c + 1) ((k + 1) % n))
      · split
        · exact Nat.succ_le_succ (Nat.zero_le rem)
        · exact Nat.succ_le_succ (ih (c + 1) k)

theorem scrapeWithRetryJSGo_calls_le (n : Nat) (out : Nat → CallOutcome) :
    ∀ rem c k, (scrapeWithRetryJSGo n out rem c k).2.1 ≤ rem := by
  intro rem
  induction rem with
  | zero => intro c k; simp [scrapeWithRetryJSGo]
  | succ rem ih =>
    intro c k
    cases h : out c with
    | success => simp [scrapeWithRetryJSGo, h]
    | fatal => simp [scrapeWithRetryJSGo, h]
    | rateLimited =>
      simp only [scrapeWithRetryJSGo, h]
      exact Nat.succ_le_succ (ih (c + 1) ((k + 1) % n))

/-- C1 (amended): for every key-pool size, failure-classification
sequence, retry budget and starting key, scrape_with_retry of scraper.py
issues at most max_retries underlying calls, while scrape_with_retry of
job_scraper.py issues at most max_retries * len(API_KEYS) underlying
calls — its loop runs max_retries * len(API_KEYS) times, so the
max_retries bound alone does not hold for it. -/
theorem retry_call_bounds (n : Nat) (out : Nat → CallOutcome)
    (mr k : Nat) :
    (scrape_with_retry n out mr k).2.1 ≤ mr ∧
    (scrape_with_retryJS n out mr k).2.1 ≤ mr * n :=
  ⟨scrapeWithRetryGo_calls_le n out mr 0 k,
   scrapeWithRetryJSGo_calls_le n out (mr * n) 0 k⟩

/-- C1 counterexample: with two keys, a budget of max_retries = 1 and
every call rate-limited, scrape_with_retry of job_scraper.py issues 2
underlying calls, exceeding the max_retries bound the claim states. -/
theorem retry_exceeds_budget_cex :
    (scrape_with_retryJS 2 (fun _ => .rateLimited) 1 0).2.1 = 2 ∧
    ¬ (scrape_with_retryJS 2 (fun _ => .rateLimited) 1 0).2.1 ≤ 1 := by
  constructor <;> decide

/-- C9: whenever the next underlying call classifies as a fatal
(non-rate-limit) failure, both retry loops stop at once for every
remaining budget: the failure is propagated (re-raised in scraper.py,
None in job_scraper.py), exactly one underlying call is issued, and the
key index is left unrotated. -/
theorem retry_fatal_immediate (n : Nat) (out : Nat → CallOutcome)
    (rem c k : Nat) (h : out c = .fatal) :
    scrapeWithRetryGo n out (rem + 1) c k = (.error .fatal, 1, k) ∧
    scrapeWithRetryJSGo n out (rem + 1) c k = (none, 1, k) := by
  constructor <;> simp [scrapeWithRetryGo, scrapeWithRetryJSGo, h]

/-- Instance of C9 at a concrete fatal outcome sequence. -/
theorem retry_fatal_immediate_witness :
    scrapeWithRetryGo 3 (fun _ => .fatal) 5 0 1 = (.error .fatal, 1, 1) ∧
    scrapeWithRetryJSGo 3 (fun _ => .fatal) 5 0 1 = (none, 1, 1) :=
  retry_fatal_immediate 3 (fun _ => .fatal) 4 0 1 rfl

/-- C2 (amended): extract_job_data of scraper.py rejects a raw listing
exactly when, after stripping, the title is empty, the apply_url is
empty, or the title is at most 3 characters long (shorter than 4, not
shorter than 5 — the 5-character threshold of the spec lives in the
per-source scrape loops, not here); extract_job_data of job_scraper.py
rejects exactly when the raw title or raw apply_url is absent or empty,
with no length threshold at all. Every candidate passing the respective
checks yields a record. -/
theorem extract_reject_characterization (raw : StrDict) (src : String) :
    (extract_job_data raw src = none ↔
      pyStrip (raw.title.getD "") = "" ∨ pyStrip (raw.apply_url.getD "") = "" ∨
        (pyStrip (raw.title.getD "")).length ≤ 3) ∧
    (extract_job_dataJS raw src = none ↔
      raw.title.getD "" = "" ∨ raw.apply_url.getD "" = "") := by
  constructor
  · simp only [extract_job_data]
    split
    · rename_i h
      simp only [reduceCtorEq, false_iff, not_or, not_le]
      exact ⟨h.1, h.2.1, h.2.2⟩
    · rename_i h
      push_neg at h
      simp only [true_iff]
      by_cases ht : pyStrip (raw.title.getD "") = ""
      · exact Or.inl ht
      by_cases hu : pyStrip (raw.apply_url.getD "") = ""
      · exact Or.inr (Or.inl hu)
      exact Or.inr (Or.inr (h ht hu))
  · simp only [extract_job_dataJS]
    split
    · rename_i h
      simpa using h
    · rename_i h
      simpa using h

/-- C2 counterexample: a stripped title of length 4 with a non-empty
apply_url is accepted by extract_job_data of scraper.py, although the
claim says every title shorter than 5 characters is rejected. -/
theorem extract_short_title_accepted_cex :
    "abcd".length < 5 ∧
    extract_job_data
        ⟨some "abcd", none, none, none, some "https://x/1", none⟩ "W" ≠ none := by
  constructor
  · decide
  · decide

/-! Credential rotation. -/

theorem iterate_succ_mod (n : Nat) (k i : Nat) (hi : i < n) :
    (fun j => (j + 1) % n)^[k] i = (i + k) % n := by
  induction k generalizing i with
  | zero => simpa using (Nat.mod_eq_of_lt hi).symm
  | succ k ih =>
    rw [Function.iterate_succ_apply]
    have h1 : (i + 1) % n < n := Nat.mod_lt _ (Nat.lt_of_le_of_lt (Nat.zero_le i) hi)
    rw [ih _ h1, Nat.mod_add_mod]
    congr 1
    omega

/-- C5: for every non-empty key pool and every valid current index,
len(keys) consecutive rotations return the index (hence the current
credential) to its original value, for both rotate_api_key of scraper.py
and rotate_api_key of job_scraper.py; moreover one rotation from any
valid index lands on a valid index for both. -/
theorem rotation_circular (keys : List String) (i j : Nat)
    (hne : keys ≠ []) (hi : i < keys.length) (hj : j < keys.length) :
    (fun m => (rotate_api_key keys m).1)^[keys.length] i = i ∧
    (rotate_api_keyJS keys)^[keys.length] i = i ∧
    (rotate_api_key keys j).1 < keys.length ∧
    rotate_api_keyJS keys j < keys.length := by
  have hn : 0 < keys.length := List.length_pos.mpr hne
  have hJSfun : rotate_api_keyJS keys = fun m => (m + 1) % keys.length := rfl
  have hJS : (rotate_api_keyJS keys)^[keys.length] i = i := by
    rw [hJSfun, iterate_succ_mod _ _ _ hi, Nat.add_mod_right, Nat.mod_eq_of_lt hi]
  refine ⟨?_, hJS, ?_, ?_⟩
  · by_cases h1 : keys.length ≤ 1
    · have : (fun m => (rotate_api_key keys m).1) = id := by
        funext m
        simp [rotate_api_key, h1]
      rw [this, Function.iterate_id, id]
    · have : (fun m => (rotate_api_key keys m).1) =
          fun m => (m + 1) % keys.length := by
        funext m
        simp [rotate_api_key, h1]
      rw [this, iterate_succ_mod _ _ _ hi, Nat.add_mod_right, Nat.mod_eq_of_lt hi]
  · by_cases h1 : keys.length ≤ 1
    · simpa [rotate_api_key, h1] using hj
    · simpa [rotate_api_key, h1] using Nat.mod_lt _ hn
  · exact Nat.mod_lt _ hn

/-- Instance of C5 on a pool of three keys starting at index 1. -/
theorem rotation_circular_witness :
    (fun m => (rotate_api_key ["k1", "k2", "k3"] m).1)^[3] 1 = 1 ∧
    (rotate_api_keyJS ["k1", "k2", "k3"])^[3] 1 = 1 ∧
    (rotate_api_key ["k1", "k2", "k3"] 2).1 < 3 ∧
    rotate_api_keyJS ["k1", "k2", "k3"] 2 < 3 :=
  rotation_circular ["k1", "k2", "k3"] 1 2 (by decide) (by decide) (by decide)

/-- C7 (amended): with an empty filtered credential list, scraper.py and
job_scraper.py abort at import time with ValueError (the
ConfigurationError of the design) before any client exists, while
ai_scraper.py aborts with an IndexError raised by subscripting the empty
key list — in every script the run dies before any fetch, but
ai_scraper.py has no configuration check. With a non-empty list every
initialization succeeds with index 0. -/
theorem init_empty_pool (envKeys : List (Option String)) :
    (apiKeysOf envKeys = [] →
      scraperInit envKeys = .error .configError ∧
      aiScraperInit envKeys = .error .indexError) ∧
    (apiKeysOf envKeys ≠ [] →
      scraperInit envKeys = .ok (apiKeysOf envKeys, 0) ∧
      aiScraperInit envKeys = .ok (apiKeysOf envKeys, 0)) := by
  constructor
  · intro h
    constructor
    · simp [scraperInit, h]
    · simp [aiScraperInit, h]
  · intro h
    constructor
    · simp [scraperInit, h]
    · rcases hm : apiKeysOf envKeys with _ | ⟨a, l⟩
      · exact absurd hm h
      · simp [aiScraperInit, hm]

/-- Instance of C7 on one unset variable (empty pool) and on one
configured key (successful initialization). -/
theorem init_empty_pool_witness :
    (scraperInit [none] = .error .configError ∧
     aiScraperInit [none] = .error .indexError) ∧
    (scraperInit [some "k"] = .ok (["k"], 0) ∧
     aiScraperInit [some "k"] = .ok (["k"], 0)) :=
  ⟨(init_empty_pool [none]).1 rfl, (init_empty_pool [some "k"]).2 (by decide)⟩

/-- C7 counterexample: on the empty pool ai_scraper.py fails with an
IndexError, which is not the configuration error the claim names. -/
theorem init_empty_pool_cex :
    aiScraperInit [] = .error .indexError ∧
    InitError.indexError ≠ InitError.configError := by
  constructor
  · rfl
  · decide

/-! Lemmas about the pagination walk. -/

theorem scrape_site_go_cap (env : String → Nat → ExtractOutcome)
    (n mp fuel pc k : Nat) (cur : String) (h : mp ≤ pc) :
    scrape_site_go env n mp fuel pc k cur = ([], k, 0) := by
  cases fuel with
  | zero => rfl
  | succ fuel =>
    simp only [scrape_site_go]
    rw [if_pos (Or.inr h)]

theorem scrape_site_go_pages_le (env : String → Nat → ExtractOutcome)
    (n mp : Nat) :
    ∀ fuel pc k cur, (scrape_site_go env n mp fuel pc k cur).2.2 ≤ mp - pc := by
  intro fuel
  induction fuel with
  | zero => intro pc k cur; simp [scrape_site_go]
  | succ fuel ih =>
    intro pc k cur
    by_cases hg : cur = "" ∨ mp ≤ pc
    · simp only [scrape_site_go]
      rw [if_pos hg]
      simp
    · push_neg at hg
      have hpc : pc < mp := hg.2
      have hle : ¬ mp ≤ pc := Nat.not_le.mpr hg.2
      cases he : env cur k with
      | empty => simp [scrape_site_go, he, hg.1, hle]; omega
      | err => simp [scrape_site_go, he, hg.1, hle]; omega
      | ok jobs next? =>
        cases next? with
        | none => simp [scrape_site_go, he, hg.1, hle]; omega
        | some next =>
          by_cases hn2 : next = "" ∨ next = cur
          · simp [scrape_site_go, he, hg.1, hle, hn2]
            omega
          · have := ih (pc + 1) k next
            simp [scrape_site_go, he, hg.1, hle, hn2]
            omega
      | quotaErr =>
        cases he2 : env cur ((k + 1) % n) with
        | ok jobs next? =>
          cases next? with
          | some next =>
            by_cases hn2 : next ≠ "" ∧ next ≠ cur
            · have := ih (pc + 1) ((k + 1) % n) next
              simp [scrape_site_go, he, he2, hg.1, hle, hn2]
              omega
            · simp [scrape_site_go, he, he2, hg.1, hle, hn2]
              omega
          | none => simp [scrape_site_go, he, he2, hg.1, hle]; omega
        | empty =>
          have := ih (pc + 1) ((k + 1) % n) cur
          simp [scrape_site_go, he, he2, hg.1, hle]
          omega
        | quotaErr => simp [scrape_site_go, he, he2, hg.1, hle]; omega
        | err => simp [scrape_site_go, he, he2, hg.1, hle]; omega

theorem scrape_site_go_fuel_agnostic (env : String → Nat → ExtractOutcome)
    (n mp : Nat) :
    ∀ f1 f2 pc k cur, mp - pc ≤ f1 → mp - pc ≤ f2 →
      scrape_site_go env n mp f1 pc k cur
        = scrape_site_go env n mp f2 pc k cur := by
  intro f1
  induction f1 with
  | zero =>
    intro f2 pc k cur h1 h2
    have hpc : mp ≤ pc := by omega
    rw [scrape_site_go_cap env n mp 0 pc k cur hpc,
        scrape_site_go_cap env n mp f2 pc k cur hpc]
  | succ f1 ih =>
    intro f2 pc k cur h1 h2
    by_cases hpc : mp ≤ pc
    · rw [scrape_site_go_cap env n mp _ pc k cur hpc,
          scrape_site_go_cap env n mp f2 pc k cur hpc]
    · have hpc' : pc < mp := Nat.not_le.mp hpc
      cases f2 with
      | zero => omega
      | succ f2 =>
        have h1' : mp - (pc + 1) ≤ f1 := by omega
        have h2' : mp - (pc + 1) ≤ f2 := by omega
        by_cases hcur : cur = ""
        · simp [scrape_site_go, hcur]
        · cases he : env cur k with
          | empty => simp [scrape_site_go, he, hcur, hpc]
          | err => simp [scrape_site_go, he, hcur, hpc]
          | ok jobs next? =>
            cases next? with
            | none => simp [scrape_site_go, he, hcur, hpc]
            | some next =>
              by_cases hn2 : next = "" ∨ next = cur
              · simp [scrape_site_go, he, hcur, hpc, hn2]
              · simp only [scrape_site_go, he, hcur, hpc]
                rw [ih f2 (pc + 1) k next h1' h2']
          | quotaErr =>
            cases he2 : env cur ((k + 1) % n) with
            | ok jobs next? =>
              cases next? with
              | some next =>
                by_cases hn2 : next ≠ "" ∧ next ≠ cur
                · simp only [scrape_site_go, he, he2, hcur, hpc]
                  rw [ih f2 (pc + 1) ((k + 1) % n) next h1' h2']
                · simp [scrape_site_go, he, he2, hcur, hpc, hn2]
              | none => simp [scrape_site_go, he, he2, hcur, hpc]
            | empty =>
              simp only [scrape_site_go, he, he2, hcur, hpc]
              rw [ih f2 (pc + 1) ((k + 1) % n) cur h1' h2']
            | quotaErr => simp [scrape_site_go, he, he2, hcur, hpc]
            | err => simp [scrape_site_go, he, he2, hcur, hpc]

/-- C8: for every extract environment, key pool, start cursor and page
cap, the walk of scrape_site visits at most max_pages pages (the third
component counts loop iterations), and its result does not depend on the
recursion fuel once the fuel covers the cap — the page cap alone bounds
the traversal, so the walk is a total function even when every page
reports a fresh non-empty next cursor. -/
theorem walker_page_cap (env : String → Nat → ExtractOutcome)
    (n mp f1 f2 pc k : Nat) (cur : String)
    (h1 : mp - pc ≤ f1) (h2 : mp - pc ≤ f2) :
    (scrape_site_go env n mp f1 pc k cur).2.2 ≤ mp - pc ∧
    scrape_site_go env n mp f1 pc k cur = scrape_site_go env n mp f2 pc k cur :=
  ⟨scrape_site_go_pages_le env n mp f1 pc k cur,
   scrape_site_go_fuel_agnostic env n mp f1 f2 pc k cur h1 h2⟩

/-- Instance of C8 on an environment whose every page yields a fresh
non-empty next cursor, with cap 3: at most 3 pages are visited and extra
fuel does not change the walk. -/
theorem walker_page_cap_witness :
    (scrape_site_go (fun u _ => .ok [] (some (u ++ "x"))) 1 3 3 0 0 "a").2.2
        ≤ 3 - 0 ∧
    scrape_site_go (fun u _ => .ok [] (some (u ++ "x"))) 1 3 3 0 0 "a"
      = scrape_site_go (fun u _ => .ok [] (some (u ++ "x"))) 1 3 10 0 0 "a" :=
  walker_page_cap (fun u _ => .ok [] (some (u ++ "x"))) 1 3 3 10 0 0 "a"
    (by decide) (by decide)

/-- C4 (amended): the walk of scrape_site detects only self-referential
pagination links: a page whose next_page_url equals its own url ends the
traversal after that page with only that page collected and no key
rotation. A two-page cycle, where the next cursor of page 2 equals the
cursor of page 1, is not detected; the walk still returns only the
page-1 and page-2 listings when max_pages is 2 (the value used in main),
because the page cap stops it there, visiting exactly 2 pages. -/
theorem walker_cycle_detection
    (envA envB : String → Nat → ExtractOutcome) (n mp fuel pc k f : Nat)
    (cur url1 url2 : String) (jobs jobs1 jobs2 : List StrDict)
    (hcur : cur ≠ "") (hpc : pc < mp)
    (hself : envA cur k = .ok jobs (some cur))
    (h1 : url1 ≠ "") (h2 : url2 ≠ "") (h21 : url2 ≠ url1)
    (henv1 : envB url1 k = .ok jobs1 (some url2))
    (henv2 : envB url2 k = .ok jobs2 (some url1)) :
    scrape_site_go envA n mp (fuel + 1) pc k cur = (jobs, k, 1) ∧
    (scrape_site_go envB n 2 (f + 2) 0 k url1).1 = jobs1 ++ jobs2 ∧
    (scrape_site_go envB n 2 (f + 2) 0 k url1).2.2 = 2 := by
  have hle : ¬ mp ≤ pc := Nat.not_le.mpr hpc
  refine ⟨?_, ?_⟩
  · simp [scrape_site_go, hself, hcur, hle]
  · have hcap : scrape_site_go envB n 2 f 2 k url1 = ([], k, 0) :=
      scrape_site_go_cap envB n 2 f 2 k url1 (by omega)
    have h12 : url1 ≠ url2 := fun h => h21 h.symm
    constructor
    · simp [scrape_site_go, henv1, henv2, h1, h2, h21, h12, hcap]
    · simp [scrape_site_go, henv1, henv2, h1, h2, h21, h12, hcap]

/-- Instance of C4 on a three-url environment with a self-loop at page s
and a two-cycle between pages a and b, run with cap 2. -/
theorem walker_cycle_detection_witness :
    scrape_site_go
        (fun u _ =>
          if u = "s" then .ok [⟨some "S", none, none, none, some "us", none⟩] (some "s")
          else if u = "a" then .ok [⟨some "A", none, none, none, some "ua", none⟩] (some "b")
          else if u = "b" then .ok [⟨some "B", none, none, none, some "ub", none⟩] (some "a")
          else .empty)
        1 5 4 0 0 "s"
      = ([⟨some "S", none, none, none, some "us", none⟩], 0, 1) ∧
    (scrape_site_go
        (fun u _ =>
          if u = "s" then .ok [⟨some "S", none, none, none, some "us", none⟩] (some "s")
          else if u = "a" then .ok [⟨some "A", none, none, none, some "ua", none⟩] (some "b")
          else if u = "b" then .ok [⟨some "B", none, none, none, some "ub", none⟩] (some "a")
          else .empty)
        1 2 2 0 0 "a").1
      = [⟨some "A", none, none, none, some "ua", none⟩] ++
        [⟨some "B", none, none, none, some "ub", none⟩] ∧
    (scrape_site_go
        (fun u _ =>
          if u = "s" then .ok [⟨some "S", none, none, none, some "us", none⟩] (some "s")
          else if u = "a" then .ok [⟨some "A", none, none, none, some "ua", none⟩] (some "b")
          else if u = "b" then .ok [⟨some "B", none, none, none, some "ub", none⟩] (some "a")
          else .empty)
        1 2 2 0 0 "a").2.2 = 2 :=
  walker_cycle_detection
    (fun u _ =>
      if u = "s" then .ok [⟨some "S", none, none, none, some "us", none⟩] (some "s")
      else if u = "a" then .ok [⟨some "A", none, none, none, some "ua", none⟩] (some "b")
      else if u = "b" then .ok [⟨some "B", none, none, none, some "ub", none⟩] (some "a")
      else .empty)
    (fun u _ =>
      if u = "s" then .ok [⟨some "S", none, none, none, some "us", none⟩] (some "s")
      else if u = "a" then .ok [⟨some "A", none, none, none, some "ua", none⟩] (some "b")
      else if u = "b" then .ok [⟨some "B", none, none, none, some "ub", none⟩] (some "a")
      else .empty)
    1 5 3 0 0 0 "s" "a" "b"
    [⟨some "S", none, none, none, some "us", none⟩]
    [⟨some "A", none, none, none, some "ua", none⟩]
    [⟨some "B", none, none, none, some "ub", none⟩]
    (by decide) (by decide) (by decide) (by decide) (by decide) (by decide)
    (by decide) (by decide)

/-- C4 counterexample: with the two-cycle environment (the next cursor of
page 2 equals the cursor of page 1) and max_pages = 3, the walk does not
stop after page 2: it revisits page 1, returning its listings twice and
visiting 3 pages, while the claim says it returns only the page-1 and
page-2 listings. -/
theorem walker_two_cycle_cex :
    scrape_site
        (fun u _ =>
          if u = "a" then .ok [⟨some "A", none, none, none, some "ua", none⟩] (some "b")
          else if u = "b" then .ok [⟨some "B", none, none, none, some "ub", none⟩] (some "a")
          else .empty)
        1 "a" 3
      = [⟨some "A", none, none, none, some "ua", none⟩,
         ⟨some "B", none, none, none, some "ub", none⟩,
         ⟨some "A", none, none, none, some "ua", none⟩] ∧
    ([⟨some "A", none, none, none, some "ua", none⟩,
      ⟨some "B", none, none, none, some "ub", none⟩,
      ⟨some "A", none, none, none, some "ua", none⟩] : List StrDict)
      ≠ [⟨some "A", none, none, none, some "ua", none⟩] ++
        [⟨some "B", none, none, none, some "ub", none⟩] := by
  constructor
  · rfl
  · decide

end RemoteScraper
